import Mathlib

/-!
Verification of the arXiv MCP HTTP server (arxiv_mcp_http_server.py).

Strings are modelled as lists of characters (`Str`), so that the Python
string operations used by the server (single-character `replace`, `lower`,
slicing, concatenation, `join`) become structurally recursive functions
that the kernel can evaluate and that admit induction.

Python `Optional[str]` parameters are modelled as `Option Str`; Python
truthiness tests (`if author_search:`, `if date_from or date_to:`) are
modelled by `truthy`, which is false for `None` and for the empty string,
exactly as in Python.
-/

abbrev Str := List Char

/-- Python `s.lower()` (characterwise, which is what it does on ASCII). -/
def to_lower (s : Str) : Str := s.map Char.toLower

/-- Python `s.replace(old, new)` for single-character `old` and `new`:
with a one-character pattern this is exactly a characterwise map. -/
def replace_char (old new : Char) (s : Str) : Str :=
  s.map (fun c => if c = old then new else c)

/-- Python `s.replace("_", "")`: with a one-character pattern and empty
replacement this removes every underscore, i.e. a filter. -/
def strip_underscores (s : Str) : Str := s.filter (fun c => c ≠ '_')

/-- Python truthiness of an `Optional[str]`: `None` and `""` are falsy. -/
def truthy : Option Str → Bool
  | none => false
  | some s => !s.isEmpty

/-- Python `dict.get(k)` on a dict built as a literal / by insertion,
modelled as an association list preserving insertion order. -/
def dict_get {α : Type} : List (Str × α) → Str → Option α
  | [], _ => none
  | (k, v) :: rest, key => if k = key then some v else dict_get rest key

/-- Python `" AND ".join(parts)`. -/
def join_and (parts : List Str) : Str := List.intercalate " AND ".toList parts

/-- arxiv.SortCriterion (the library enum the server resolves into). -/
inductive SortCriterion where
  | Relevance
  | SubmittedDate
  | LastUpdatedDate
deriving DecidableEq, Repr

/-- arxiv.SortOrder. -/
inductive SortOrder where
  | Ascending
  | Descending
deriving DecidableEq, Repr

/-- The `sort_mapping` dict of search_papers (lines 63-70). -/
def sort_mapping : List (Str × SortCriterion) :=
  [("relevance".toList, .Relevance),
   ("submitted".toList, .SubmittedDate),
   ("submitteddate".toList, .SubmittedDate),
   ("updated".toList, .LastUpdatedDate),
   ("lastupdated".toList, .LastUpdatedDate),
   ("lastupdateddate".toList, .LastUpdatedDate)]

/-- Line 71: `sort_mapping.get(sort_by.lower().replace("_", ""), Relevance)`. -/
def resolve_sort_by (sort_by : Str) : SortCriterion :=
  (dict_get sort_mapping (strip_underscores (to_lower sort_by))).getD .Relevance

/-- The `order_mapping` dict of search_papers (lines 74-79). -/
def order_mapping : List (Str × SortOrder) :=
  [("desc".toList, .Descending),
   ("descending".toList, .Descending),
   ("asc".toList, .Ascending),
   ("ascending".toList, .Ascending)]

/-- Line 80: `order_mapping.get(sort_order.lower(), Descending)`
(note: no underscore stripping here, unlike sort_by). -/
def resolve_sort_order (sort_order : Str) : SortOrder :=
  (dict_get order_mapping (to_lower sort_order)).getD .Descending

/-- The SearchField enum declared at the top of the server (lines 30-39),
documenting the available search fields and their arXiv field codes. -/
inductive SearchField where
  | ALL
  | TITLE
  | AUTHOR
  | ABSTRACT
  | COMMENT
  | JOURNAL_REF
  | CATEGORY
  | REPORT_NUMBER
deriving DecidableEq, Repr

/-- The string value of each SearchField enum member. -/
def SearchField.value : SearchField → Str
  | .ALL => "all".toList
  | .TITLE => "ti".toList
  | .AUTHOR => "au".toList
  | .ABSTRACT => "abs".toList
  | .COMMENT => "co".toList
  | .JOURNAL_REF => "jr".toList
  | .CATEGORY => "cat".toList
  | .REPORT_NUMBER => "rn".toList

/-- The `field_mapping` dict of search_papers (lines 86-94). -/
def field_mapping : List (Str × Str) :=
  [("title".toList, "ti".toList),
   ("author".toList, "au".toList),
   ("abstract".toList, "abs".toList),
   ("category".toList, "cat".toList),
   ("comment".toList, "co".toList),
   ("journal".toList, "jr".toList),
   ("all".toList, "all".toList)]

/-- Line 95: `field_mapping.get(search_field.lower(), "all")`. -/
def field_code (search_field : Str) : Str :=
  (dict_get field_mapping (to_lower search_field)).getD "all".toList

/-- Line 105: `author_search.replace(" ", "_").lower()`. -/
def clean_author (author_search : Str) : Str :=
  to_lower (replace_char ' ' '_' author_search)

/-- Lines 83-118 of search_papers: build the arXiv query string.
The parts list is built exactly as in the source: field-prefixed (or raw)
term, then the author clause if the author filter is truthy, then one of
three date clauses if either date bound is truthy, joined by " AND ". -/
def final_query (query search_field : Str)
    (author_search date_from date_to : Option Str) : Str :=
  let fc := field_code search_field
  let parts1 : List Str :=
    if fc ≠ "all".toList then [fc ++ ":".toList ++ query] else [query]
  let parts2 : List Str :=
    if truthy author_search then
      parts1 ++ ["au:".toList ++ clean_author (author_search.getD [])]
    else parts1
  let parts3 : List Str :=
    if truthy date_from || truthy date_to then
      if truthy date_from && truthy date_to then
        parts2 ++ ["submittedDate:[".toList ++ date_from.getD [] ++ "0000 TO ".toList
                    ++ date_to.getD [] ++ "2359]".toList]
      else if truthy date_from then
        parts2 ++ ["submittedDate:[".toList ++ date_from.getD [] ++ "0000 TO *]".toList]
      else
        parts2 ++ ["submittedDate:[* TO ".toList ++ date_to.getD [] ++ "2359]".toList]
    else parts2
  join_and parts3

/-- Line 134: `query.lower().replace(" ", "_").replace("/", "_")[:50]`. -/
def query_slug_base (query : Str) : Str :=
  (replace_char '/' '_' (replace_char ' ' '_' (to_lower query))).take 50

/-- Lines 134-136: the topic slug, with the `_by_<author>` suffix appended
when the author filter is truthy (only spaces replaced, case preserved). -/
def topic_slug (query : Str) (author_search : Option Str) : Str :=
  if truthy author_search then
    query_slug_base query ++ "_by_".toList
      ++ replace_char ' ' '_' (author_search.getD [])
  else query_slug_base query

/-- A paper record as returned by the arxiv provider (the attributes of
`paper` that search_papers reads in lines 155-169). `updated` is an
Option because line 166 tests its truthiness before using it. -/
structure Paper where
  short_id : Str
  title : Str
  authors : List Str
  summary : Str
  pdf_url : Str
  published : Str
  updated : Option Str
  categories : List Str
  primary_category : Str
  entry_id : Str
deriving DecidableEq, Repr

/-- The `search_params` provenance dict stored with each paper
(lines 170-176). -/
structure SearchParams where
  query : Str
  sort_by : Str
  search_field : Str
  author_search : Option Str
  date_range : Option Str
deriving DecidableEq, Repr

/-- The `paper_info` dict stored in the topic cache (lines 160-177). -/
structure PaperInfo where
  title : Str
  authors : List Str
  summary : Str
  pdf_url : Str
  published : Str
  updated : Str
  categories : List Str
  primary_category : Str
  entry_id : Str
  search_params : SearchParams
deriving DecidableEq, Repr

/-- A topic cache document: the JSON object mapping paper id to record,
modelled as an association list in insertion order (Python dicts preserve
insertion order, and search_papers only ever inserts fresh keys). -/
abbrev TopicDoc := List (Str × PaperInfo)

/-- The request parameters that flow into the stored provenance. -/
structure SearchCtx where
  query : Str
  sort_by : Str
  search_field : Str
  author_search : Option Str
  date_from : Option Str
  date_to : Option Str
deriving DecidableEq, Repr

/-- Line 175: `f"{date_from} to {date_to}" if date_from or date_to else None`
(Python renders a None bound as the four characters "None"). -/
def date_range_str (date_from date_to : Option Str) : Option Str :=
  if truthy date_from || truthy date_to then
    some ((date_from.getD "None".toList) ++ " to ".toList ++ (date_to.getD "None".toList))
  else none

/-- Lines 160-177: the `paper_info` dict built for a newly seen paper. -/
def paper_info_of (ctx : SearchCtx) (p : Paper) : PaperInfo where
  title := p.title
  authors := p.authors
  summary := p.summary
  pdf_url := p.pdf_url
  published := p.published
  updated := if truthy p.updated then p.updated.getD [] else p.published
  categories := p.categories
  primary_category := p.primary_category
  entry_id := p.entry_id
  search_params :=
    { query := ctx.query
      sort_by := ctx.sort_by
      search_field := ctx.search_field
      author_search := ctx.author_search
      date_range := date_range_str ctx.date_from ctx.date_to }

/-- Lines 151-178: the merge loop of search_papers. Returns, in order,
the accumulated `paper_ids` list (every returned id, duplicates kept),
the `new_papers_count`, and the updated `papers_info` document. Fresh
keys are appended at the end, matching Python dict insertion order. -/
def process_papers (ctx : SearchCtx) : List Paper → TopicDoc → List Str × Nat × TopicDoc
  | [], doc => ([], 0, doc)
  | p :: rest, doc =>
    let pid := p.short_id
    match dict_get doc pid with
    | some _ =>
      let r := process_papers ctx rest doc
      (pid :: r.1, r.2.1, r.2.2)
    | none =>
      let r := process_papers ctx rest (doc ++ [(pid, paper_info_of ctx p)])
      (pid :: r.1, r.2.1 + 1, r.2.2)

/-- Lines 144-148: load the existing topic document. `none` models a
missing file (FileNotFoundError), `some none` a file whose content is not
well-formed JSON (JSONDecodeError); both are replaced by the empty dict. -/
def load_papers_info : Option (Option TopicDoc) → TopicDoc
  | some (some doc) => doc
  | _ => []

/-- The parts of the search_papers return value (lines 185-202) that the
cache pipeline determines, together with the document written to disk. -/
structure SearchOutcome where
  paper_ids : List Str
  total_found : Nat
  new_papers : Nat
  search_query : Str
  slug : Str
  sort_criterion : SortCriterion
  sort_order_resolved : SortOrder
  saved_doc : TopicDoc
deriving DecidableEq, Repr

/-- The search_papers pipeline (lines 48-202) with the two external
effects made explicit: `provider_papers` is the sequence the arxiv client
returns for the built query, and `stored` is the current state of the
topic's papers_info.json (missing / malformed / parsed). -/
def search_papers (query sort_by sort_order search_field : Str)
    (date_from date_to author_search : Option Str)
    (provider_papers : List Paper)
    (stored : Option (Option TopicDoc)) : SearchOutcome :=
  let fq := final_query query search_field author_search date_from date_to
  let slug := topic_slug query author_search
  let papers_info := load_papers_info stored
  let ctx : SearchCtx :=
    { query := query, sort_by := sort_by, search_field := search_field
      author_search := author_search, date_from := date_from, date_to := date_to }
  let r := process_papers ctx provider_papers papers_info
  { paper_ids := r.1
    total_found := r.1.length
    new_papers := r.2.1
    search_query := fq
    slug := slug
    sort_criterion := resolve_sort_by sort_by
    sort_order_resolved := resolve_sort_order sort_order
    saved_doc := r.2.2 }

/-- Result of extract_info (lines 233-252): the found record's stored
attributes, or one of the two not-found messages (missing root directory,
or id in no document). -/
inductive ExtractResult where
  | found : PaperInfo → ExtractResult
  | noDir : ExtractResult
  | notFound : ExtractResult
deriving DecidableEq, Repr

/-- What `json.load` on a topic's papers_info.json can produce, as seen
by the code at lines 244-248: a JSONDecodeError (caught), a JSON object
(the intended shape, a mapping), a JSON string or array (`paper_id in
papers_info` is then a substring/element test, modelled by its Boolean
outcome, and a successful test makes `papers_info[paper_id]` raise
TypeError), or a JSON scalar such as a number (the `in` test itself
raises TypeError). -/
inductive JsonDoc where
  | decodeFailure : JsonDoc
  | mapping : TopicDoc → JsonDoc
  | collection : (Str → Bool) → JsonDoc
  | scalar : JsonDoc

/-- The uncaught TypeErrors extract_info can raise on a document that
json.load accepts but that is not an object: line 246's membership test
on a non-iterable value, or line 247's string indexing of a string or
array. Neither is in the except tuple at line 248. -/
inductive PyTypeError where
  | nonIterableMembership : PyTypeError
  | nonMappingIndex : PyTypeError
deriving DecidableEq, Repr

/-- Lines 238-250: scan the topic directories in listing order. Only a
decode failure is caught and skipped; a document that parses to a
non-object either raises at the membership test (scalar) or, when the
membership test succeeds, at the indexing (string/array). -/
def extract_scan (paper_id : Str) :
    List (Str × JsonDoc) → Except PyTypeError ExtractResult
  | [] => .ok .notFound
  | (_, .decodeFailure) :: rest => extract_scan paper_id rest
  | (_, .mapping doc) :: rest =>
    match dict_get doc paper_id with
    | some info => .ok (.found info)
    | none => extract_scan paper_id rest
  | (_, .collection member) :: rest =>
    if member paper_id then .error .nonMappingIndex
    else extract_scan paper_id rest
  | (_, .scalar) :: _ => .error .nonIterableMembership

/-- extract_info (lines 233-252): `none` for the root directory models
the missing-PAPER_DIR early return of lines 235-236; an `Except.error`
is a TypeError propagating out of the function. -/
def extract_info (paper_id : Str)
    (root : Option (List (Str × JsonDoc))) : Except PyTypeError ExtractResult :=
  match root with
  | none => .ok .noDir
  | some store => extract_scan paper_id store

/-- The exceptions that can be raised inside the try block of
mcp_endpoint (lines 335-387): a body that is not valid JSON
(request.json() raises), an explicit `raise HTTPException(status, detail)`
(lines 340, 370, 387), or an exception escaping a tool call. -/
inductive Exn where
  | jsonDecodeError : Exn
  | httpException : Nat → Str → Exn
  | toolFailure : Str → Exn
deriving DecidableEq, Repr

/-- Decimal digits of a Nat, for rendering the HTTPException status. -/
def nat_digits (n : Nat) : Str := (toString n).toList

/-- Python `str(e)` for each exception as it lands in the `data` field:
starlette renders an HTTPException as "status: detail". -/
def Exn.text : Exn → Str
  | .jsonDecodeError => "Expecting value: line 1 column 1 (char 0)".toList
  | .httpException status detail => nat_digits status ++ ": ".toList ++ detail
  | .toolFailure msg => msg

/-- The fields of the request body that mcp_endpoint reads. `is_dict`
models `isinstance(body, dict)`; the remaining fields model
`body.get(...)` / `params.get(...)` on a dict body. -/
structure RpcBody where
  is_dict : Bool
  jsonrpc : Option Str
  method : Option Str
  req_id : Option Int
  tool_name : Option Str
deriving DecidableEq, Repr

/-- What the HTTP caller receives from POST /mcp. `listResult` and
`callResult` are the JSONResponse successes (status 200); `rpcError` is
the except-branch JSONResponse carrying the JSON-RPC error object
(lines 389-399); `unhandled` models an exception escaping the except
handler itself, which the surrounding framework turns into a bare
500 response. -/
inductive EndpointResp where
  | listResult : Nat → Option Int → EndpointResp
  | callResult : Nat → Option Int → Str → EndpointResp
  | rpcError : Nat → Option Int → Int → Str → Str → EndpointResp
  | unhandled : Nat → EndpointResp
deriving DecidableEq, Repr

/-- The four tool names dispatched at lines 361-368. -/
def known_tools : List Str :=
  ["search_papers".toList, "search_by_author".toList,
   "search_recent_papers".toList, "extract_info".toList]

/-- The try block of mcp_endpoint (lines 335-387). `body` is the parsed
request body (`none` when the payload is not valid JSON). `run_tool`
gives the outcome of executing a recognized tool on the forwarded
arguments: `Except.error msg` models an exception whose text is msg,
`Except.ok text` the serialized tool result. -/
def try_block (body : Option RpcBody)
    (run_tool : Str → Except Str Str) : Except Exn EndpointResp :=
  match body with
  | none => .error .jsonDecodeError
  | some b =>
    if !b.is_dict || b.jsonrpc ≠ some "2.0".toList then
      .error (.httpException 400 "Invalid JSON-RPC request".toList)
    else if b.method = some "tools/list".toList then
      .ok (.listResult 200 b.req_id)
    else if b.method = some "tools/call".toList then
      let tn := b.tool_name.getD "None".toList
      if tn ∈ known_tools then
        match run_tool tn with
        | .ok text => .ok (.callResult 200 b.req_id text)
        | .error msg => .error (.toolFailure msg)
      else
        .error (.httpException 400 ("Unknown tool: ".toList ++ tn))
    else
      .error (.httpException 400
        ("Unknown method: ".toList ++ ((b.method.map id).getD "None".toList)))

/-- mcp_endpoint (lines 329-399). Every exception raised in the try
block — including the HTTPExceptions raised with status 400 for shape
errors — is caught by the bare `except Exception` and turned into the
HTTP-500 JSON-RPC error object with code -32603 and str(e) in data.
When the body parsed but is not a dict, `body.get("id")` inside the
except handler itself raises, which the framework surfaces as a bare
500 (`unhandled`). -/
def mcp_endpoint (body : Option RpcBody)
    (run_tool : Str → Except Str Str) : EndpointResp :=
  match try_block body run_tool with
  | .ok resp => resp
  | .error e =>
    match body with
    | none => .rpcError 500 none (-32603) "Internal error".toList e.text
    | some b =>
      if b.is_dict then
        .rpcError 500 b.req_id (-32603) "Internal error".toList e.text
      else
        .unhandled 500

/-- Spec-side rendering of the date clause, written from the spec's
words (a single inclusive range clause with an absent bound rendered as
an open `*` bound), to be compared against final_query's three-branch
construction. -/
def date_clause_spec (date_from date_to : Option Str) : Option Str :=
  if truthy date_from || truthy date_to then
    some ("submittedDate:[".toList
      ++ (if truthy date_from then date_from.getD [] ++ "0000".toList else "*".toList)
      ++ " TO ".toList
      ++ (if truthy date_to then date_to.getD [] ++ "2359".toList else "*".toList)
      ++ "]".toList)
  else none

/-- Concrete provenance record used by the concrete-instance theorems. -/
def sample_params : SearchParams where
  query := "a".toList
  sort_by := "relevance".toList
  search_field := "all".toList
  author_search := none
  date_range := none

/-- A concrete stored cache record used by the concrete-instance theorems. -/
def sample_info : PaperInfo where
  title := "t".toList
  authors := ["A B".toList]
  summary := "s".toList
  pdf_url := "u".toList
  published := "2024-01-01".toList
  updated := "2024-01-02".toList
  categories := ["cs.AI".toList]
  primary_category := "cs.AI".toList
  entry_id := "e".toList
  search_params := sample_params

/-- A concrete provider-returned paper with the same identifier as
sample_info but different attributes. -/
def sample_paper : Paper where
  short_id := "x".toList
  title := "different title".toList
  authors := ["C D".toList]
  summary := "other".toList
  pdf_url := "v".toList
  published := "2025-05-05".toList
  updated := none
  categories := ["cs.LG".toList]
  primary_category := "cs.LG".toList
  entry_id := "f".toList

/-! ### Lemmas about the association-list dictionary and the merge loop -/

theorem dict_get_append {α : Type} (d : List (Str × α)) (k x : Str) (v : α) :
    dict_get (d ++ [(k, v)]) x
      = ((dict_get d x).orElse (fun _ => if k = x then some v else none)) := by
  induction d with
  | nil => simp [dict_get]
  | cons kv rest ih =>
    by_cases h : kv.1 = x <;> simp [dict_get, h, ih]

theorem isNone_dict_get_append {α : Type} (d : List (Str × α)) (k x : Str) (v : α) :
    (dict_get (d ++ [(k, v)]) x).isNone
      = ((dict_get d x).isNone && !(decide (k = x))) := by
  rw [dict_get_append]
  cases hd : dict_get d x with
  | some w => simp
  | none => by_cases h : k = x <;> simp [h]

theorem process_papers_ids (ctx : SearchCtx) (papers : List Paper) :
    ∀ doc : TopicDoc, (process_papers ctx papers doc).1 = papers.map Paper.short_id := by
  induction papers with
  | nil => intro doc; simp [process_papers]
  | cons p rest ih =>
    intro doc
    cases hp : dict_get doc p.short_id <;> simp [process_papers, hp, ih]

theorem process_papers_preserved (ctx : SearchCtx) (papers : List Paper) :
    ∀ (doc : TopicDoc) (id : Str) (info : PaperInfo), dict_get doc id = some info →
      dict_get (process_papers ctx papers doc).2.2 id = some info := by
  induction papers with
  | nil => intro doc id info h; simpa [process_papers] using h
  | cons p rest ih =>
    intro doc id info h
    cases hp : dict_get doc p.short_id with
    | some w => simpa [process_papers, hp] using ih doc id info h
    | none =>
      have h2 : dict_get (doc ++ [(p.short_id, paper_info_of ctx p)]) id = some info := by
        rw [dict_get_append, h]; rfl
      simpa [process_papers, hp] using ih _ id info h2

theorem process_papers_fresh (ctx : SearchCtx) (papers : List Paper) :
    ∀ (doc : TopicDoc) (id : Str), dict_get doc id = none →
      dict_get (process_papers ctx papers doc).2.2 id
        = (papers.find? (fun p => p.short_id = id)).map (paper_info_of ctx) := by
  induction papers with
  | nil => intro doc id h; simpa [process_papers] using h
  | cons p rest ih =>
    intro doc id h
    by_cases he : p.short_id = id
    · subst he
      have hd : dict_get (doc ++ [(p.short_id, paper_info_of ctx p)]) p.short_id
          = some (paper_info_of ctx p) := by
        rw [dict_get_append, h]; simp
      have hpres := process_papers_preserved ctx rest _ p.short_id _ hd
      simp [process_papers, h, List.find?, hpres]
    · cases hp : dict_get doc p.short_id with
      | some w =>
        have := ih doc id h
        simp [process_papers, hp, List.find?, he, this]
      | none =>
        have h2 : dict_get (doc ++ [(p.short_id, paper_info_of ctx p)]) id = none := by
          rw [dict_get_append, h]; simp [he]
        have := ih _ id h2
        simp [process_papers, hp, List.find?, he, this]

theorem process_papers_mem_ne_none (ctx : SearchCtx) (papers : List Paper)
    (doc : TopicDoc) (p : Paper) (hp : p ∈ papers) :
    dict_get (process_papers ctx papers doc).2.2 p.short_id ≠ none := by
  cases h : dict_get doc p.short_id with
  | some w =>
    rw [process_papers_preserved ctx papers doc p.short_id w h]
    simp
  | none =>
    rw [process_papers_fresh ctx papers doc p.short_id h]
    have hs : (papers.find? (fun q => q.short_id = p.short_id)).isSome := by
      rw [List.find?_isSome]
      exact ⟨p, hp, by simp⟩
    cases hf : papers.find? (fun q => q.short_id = p.short_id) with
    | none => rw [hf] at hs; simp at hs
    | some q => simp [hf]

theorem process_papers_noop (ctx : SearchCtx) (papers : List Paper) :
    ∀ doc : TopicDoc, (∀ p ∈ papers, dict_get doc p.short_id ≠ none) →
      process_papers ctx papers doc = (papers.map Paper.short_id, 0, doc) := by
  induction papers with
  | nil => intro doc _; simp [process_papers]
  | cons p rest ih =>
    intro doc h
    cases hp : dict_get doc p.short_id with
    | none => exact absurd hp (h p (by simp))
    | some w =>
      have := ih doc (fun q hq => h q (List.mem_cons_of_mem _ hq))
      simp [process_papers, hp, this]

theorem process_papers_idem (ctx : SearchCtx) (papers : List Paper) (doc : TopicDoc) :
    process_papers ctx papers (process_papers ctx papers doc).2.2
      = (papers.map Paper.short_id, 0, (process_papers ctx papers doc).2.2) :=
  process_papers_noop ctx papers _
    (fun p hp => process_papers_mem_ne_none ctx papers doc p hp)

theorem card_insert_eq_card_erase_add_one {α : Type} [DecidableEq α]
    (s : Finset α) (a : α) : (insert a s).card = (s.erase a).card + 1 := by
  have h1 : insert a s = insert a (s.erase a) := by
    ext x; by_cases hx : x = a <;> simp [hx]
  rw [h1, Finset.card_insert_of_not_mem (Finset.not_mem_erase a s)]

theorem process_papers_count (ctx : SearchCtx) (papers : List Paper) :
    ∀ doc : TopicDoc,
      (process_papers ctx papers doc).2.1
        = ((papers.map Paper.short_id).filter
            (fun id => (dict_get doc id).isNone)).toFinset.card := by
  induction papers with
  | nil => intro doc; simp [process_papers]
  | cons p rest ih =>
    intro doc
    cases hp : dict_get doc p.short_id with
    | some w =>
      have hfilter : (dict_get doc p.short_id).isNone = false := by simp [hp]
      simp [process_papers, hp, List.filter_cons, hfilter, ih doc]
    | none =>
      have hfilter : (dict_get doc p.short_id).isNone = true := by simp [hp]
      have hsets :
          ((rest.map Paper.short_id).filter
              (fun id => (dict_get (doc ++ [(p.short_id, paper_info_of ctx p)]) id).isNone)).toFinset
            = (((rest.map Paper.short_id).filter
                (fun id => (dict_get doc id).isNone)).toFinset).erase p.short_id := by
        ext x
        simp only [List.mem_toFinset, List.mem_filter, Finset.mem_erase]
        constructor
        · rintro ⟨hx, hn⟩
          rw [isNone_dict_get_append] at hn
          simp only [Bool.and_eq_true, Bool.not_eq_true', decide_eq_false_iff_not] at hn
          exact ⟨fun hxa => hn.2 hxa.symm, hx, hn.1⟩
        · rintro ⟨hne, hx, hn⟩
          refine ⟨hx, ?_⟩
          rw [isNone_dict_get_append]
          simp only [Bool.and_eq_true, Bool.not_eq_true', decide_eq_false_iff_not]
          exact ⟨hn, fun hxa => hne hxa.symm⟩
      calc (process_papers ctx (p :: rest) doc).2.1
          = (process_papers ctx rest (doc ++ [(p.short_id, paper_info_of ctx p)])).2.1 + 1 := by
            simp [process_papers, hp]
        _ = ((((rest.map Paper.short_id).filter
              (fun id => (dict_get doc id).isNone)).toFinset).erase p.short_id).card + 1 := by
            rw [ih, hsets]
        _ = (insert p.short_id ((rest.map Paper.short_id).filter
              (fun id => (dict_get doc id).isNone)).toFinset).card := by
            rw [card_insert_eq_card_erase_add_one]
        _ = (((p :: rest).map Paper.short_id).filter
              (fun id => (dict_get doc id).isNone)).toFinset.card := by
            simp [List.filter_cons, hfilter]

/-! ### Claim theorems -/

/-- Claim C1: first-write-wins merge — for every topic cache state and
every provider-returned record whose identifier is already a key of the
stored topic document, search_papers leaves that stored entry unchanged
after the merge; and any identifier absent before the merge and present
after it is one of the provider-returned identifiers. -/
theorem first_write_wins (q sb so sf : Str) (df dt au : Option Str)
    (papers : List Paper) (doc : TopicDoc) :
    (∀ id info, dict_get doc id = some info →
        dict_get (search_papers q sb so sf df dt au papers
          (some (some doc))).saved_doc id = some info) ∧
    (∀ id, dict_get doc id = none →
        dict_get (search_papers q sb so sf df dt au papers
          (some (some doc))).saved_doc id ≠ none →
        id ∈ papers.map Paper.short_id) := by
  constructor
  · intro id info h
    simp only [search_papers, load_papers_info]
    exact process_papers_preserved _ papers doc id info h
  · intro id h hne
    simp only [search_papers, load_papers_info] at hne
    rw [process_papers_fresh _ papers doc id h] at hne
    cases hf : papers.find? (fun p => p.short_id = id) with
    | none => rw [hf] at hne; simp at hne
    | some p =>
      have hmem := List.mem_of_find?_eq_some hf
      have hpid : p.short_id = id := by
        have := List.find?_some hf
        simpa using this
      exact List.mem_map.mpr ⟨p, hmem, hpid⟩

/-- Claim C1 witness: a concrete stored entry with identifier x survives
a merge of a provider record with the same identifier but different
attributes. -/
theorem first_write_wins_witness :
    dict_get [("x".toList, sample_info)] "x".toList = some sample_info ∧
    dict_get (search_papers "a".toList "relevance".toList "descending".toList
        "all".toList none none none [sample_paper]
        (some (some [("x".toList, sample_info)]))).saved_doc "x".toList
      = some sample_info :=
  ⟨by decide,
   (first_write_wins "a".toList "relevance".toList "descending".toList
      "all".toList none none none [sample_paper]
      [("x".toList, sample_info)]).1 "x".toList sample_info (by decide)⟩

/-- Claim C2: merge idempotence — merging the same provider result
sequence a second time yields a stored topic document equal to the one
after the first merge, and the second merge reports zero new papers. -/
theorem merge_idempotent (q sb so sf : Str) (df dt au : Option Str)
    (papers : List Paper) (stored : Option (Option TopicDoc)) :
    (search_papers q sb so sf df dt au papers
        (some (some (search_papers q sb so sf df dt au papers stored).saved_doc))).saved_doc
      = (search_papers q sb so sf df dt au papers stored).saved_doc ∧
    (search_papers q sb so sf df dt au papers
        (some (some (search_papers q sb so sf df dt au papers stored).saved_doc))).new_papers
      = 0 := by
  constructor
  · simp only [search_papers, load_papers_info]
    rw [process_papers_idem]
  · simp only [search_papers, load_papers_info]
    rw [process_papers_idem]

/-- Claim C7: permissive cache load — a missing topic file and a
malformed topic file are both treated exactly as an empty stored
document: the whole search_papers outcome coincides with a merge into an
empty cache, and no failure is surfaced. -/
theorem permissive_cache_load (q sb so sf : Str) (df dt au : Option Str)
    (papers : List Paper) :
    search_papers q sb so sf df dt au papers none
        = search_papers q sb so sf df dt au papers (some (some [])) ∧
    search_papers q sb so sf df dt au papers (some none)
        = search_papers q sb so sf df dt au papers (some (some [])) :=
  ⟨rfl, rfl⟩

/-- Claim C10: duplicate identifiers in one provider response —
paper_ids is the full returned id sequence with duplicates, total_found
its length, new_papers the number of distinct returned identifiers
absent from the stored document, and a fresh identifier is stored with
the attributes of its first occurrence in the response. -/
theorem duplicate_ids_accounting (q sb so sf : Str) (df dt au : Option Str)
    (papers : List Paper) (doc : TopicDoc) :
    (search_papers q sb so sf df dt au papers (some (some doc))).paper_ids
      = papers.map Paper.short_id ∧
    (search_papers q sb so sf df dt au papers (some (some doc))).total_found
      = papers.length ∧
    (search_papers q sb so sf df dt au papers (some (some doc))).new_papers
      = ((papers.map Paper.short_id).filter
          (fun id => (dict_get doc id).isNone)).toFinset.card ∧
    (∀ id, dict_get doc id = none →
      dict_get (search_papers q sb so sf df dt au papers
          (some (some doc))).saved_doc id
        = (papers.find? (fun p => p.short_id = id)).map
            (paper_info_of
              { query := q, sort_by := sb, search_field := sf
                author_search := au, date_from := df, date_to := dt })) := by
  refine ⟨?_, ?_, ?_, ?_⟩
  · simp only [search_papers, load_papers_info]
    exact process_papers_ids _ papers doc
  · simp only [search_papers, load_papers_info]
    rw [process_papers_ids _ papers doc, List.length_map]
  · simp only [search_papers, load_papers_info]
    exact process_papers_count _ papers doc
  · intro id h
    simp only [search_papers, load_papers_info]
    exact process_papers_fresh _ papers doc id h

/-- Claim C10 witness: a response containing the same new identifier
twice stores it with the first occurrence's attributes. -/
theorem duplicate_ids_accounting_witness :
    dict_get ([] : TopicDoc) "x".toList = none ∧
    dict_get (search_papers "a".toList "relevance".toList "descending".toList
        "all".toList none none none [sample_paper, sample_paper]
        (some (some []))).saved_doc "x".toList
      = ([sample_paper, sample_paper].find?
            (fun p => p.short_id = "x".toList)).map
          (paper_info_of
            { query := "a".toList, sort_by := "relevance".toList
              search_field := "all".toList, author_search := none
              date_from := none, date_to := none }) :=
  ⟨rfl,
   (duplicate_ids_accounting "a".toList "relevance".toList "descending".toList
      "all".toList none none none [sample_paper, sample_paper]
      []).2.2.2 "x".toList rfl⟩

/-- Claim C3: query construction — the three documented concrete cases,
and, for every request (any query, search field, author filter and date
bounds), the present clauses are joined by AND in term, author, date
order with the date clause in the single-inclusive-range form where an
absent bound is an open bound. -/
theorem query_construction (q sf : Str) (au df dt : Option Str) :
    final_query "neural nets".toList "title".toList none none none
      = "ti:neural nets".toList ∧
    final_query "neural nets".toList "title".toList (some "Jane Doe".toList)
        none none
      = "ti:neural nets AND au:jane_doe".toList ∧
    final_query "neural nets".toList "title".toList (some "Jane Doe".toList)
        (some "20240101".toList) (some "20240131".toList)
      = ("ti:neural nets AND au:jane_doe AND ".toList
          ++ "submittedDate:[202401010000 TO 202401312359]".toList) ∧
    final_query q sf au df dt
      = join_and ((if field_code sf ≠ "all".toList
              then [field_code sf ++ ":".toList ++ q] else [q])
          ++ (if truthy au then ["au:".toList ++ clean_author (au.getD [])] else [])
          ++ (match date_clause_spec df dt with
              | some c => [c]
              | none => [])) := by
  refine ⟨by decide, by decide, by decide, ?_⟩
  have h1 : "0000 TO ".toList = "0000".toList ++ " TO ".toList := by decide
  have h2 : "2359]".toList = "2359".toList ++ "]".toList := by decide
  have h3 : "0000 TO *]".toList
      = "0000".toList ++ " TO ".toList ++ "*".toList ++ "]".toList := by decide
  have h4 : "submittedDate:[* TO ".toList
      = "submittedDate:[".toList ++ "*".toList ++ " TO ".toList := by decide
  simp only [final_query, date_clause_spec]
  cases hdf : truthy df <;> cases hdt : truthy dt <;> cases hau : truthy au <;>
    simp [hdf, hdt, hau, h1, h2, h3, h4, List.append_assoc]

/-- Claim C4: the documented search field journal_ref is not handled by
the field_mapping dict (whose key is "journal"), so a journal_ref search
silently gets no field prefix, although the server's own SearchField enum
declares JOURNAL_REF with field code jr; every other documented non-all
field resolves to its code. -/
theorem journal_ref_not_prefixed :
    SearchField.JOURNAL_REF.value = "jr".toList ∧
    dict_get field_mapping "journal_ref".toList = none ∧
    field_code "journal_ref".toList = "all".toList ∧
    final_query "x".toList "journal_ref".toList none none none = "x".toList ∧
    final_query "x".toList "journal".toList none none none = "jr:x".toList ∧
    field_code "title".toList = "ti".toList ∧
    field_code "author".toList = "au".toList ∧
    field_code "abstract".toList = "abs".toList ∧
    field_code "category".toList = "cat".toList ∧
    field_code "comment".toList = "co".toList ∧
    field_code "all".toList = "all".toList := by decide

/-- Claim C5 counterexample: a path separator in the author filter
survives into the topic slug, because the author suffix only replaces
spaces. -/
theorem slug_counterexample :
    '/' ∈ topic_slug "x".toList (some "a/b".toList) := by decide

/-- Claim C5 amended: the slug is a pure function of the (query,
author_filter) pair; the query-derived portion contains no path
separator and is at most 50 characters; and the whole slug never exceeds
50 characters plus the author suffix — but the author suffix itself
retains any path separators of the author filter. -/
theorem slug_deterministic_and_bounded (q : Str) (au : Option Str) :
    (∀ q2 au2, q = q2 → au = au2 → topic_slug q au = topic_slug q2 au2) ∧
    '/' ∉ query_slug_base q ∧
    (query_slug_base q).length ≤ 50 ∧
    (topic_slug q au).length
      ≤ 50 + ("_by_".toList ++ replace_char ' ' '_' (au.getD [])).length := by
  have hbase : '/' ∉ query_slug_base q := by
    intro hmem
    have hmem2 := List.take_subset 50 _ hmem
    rcases List.mem_map.mp hmem2 with ⟨c, _, hc⟩
    by_cases h : c = '/' <;> simp [h] at hc
  have hlen : (query_slug_base q).length ≤ 50 := by
    unfold query_slug_base
    rw [List.length_take]
    exact min_le_left _ _
  refine ⟨?_, hbase, hlen, ?_⟩
  · intro q2 au2 hq hau; rw [hq, hau]
  · unfold topic_slug
    by_cases hau : truthy au = true
    · rw [if_pos hau]
      simp only [List.length_append]
      omega
    · rw [if_neg hau]
      exact le_trans hlen (Nat.le_add_right 50 _)

/-- Claim C5 witness: the amended properties at a concrete input. -/
theorem slug_deterministic_and_bounded_witness :
    topic_slug "a b".toList (some "C D".toList)
      = topic_slug "a b".toList (some "C D".toList) ∧
    '/' ∉ query_slug_base "a b".toList :=
  ⟨(slug_deterministic_and_bounded "a b".toList (some "C D".toList)).1
      "a b".toList (some "C D".toList) rfl rfl,
   (slug_deterministic_and_bounded "a b".toList (some "C D".toList)).2.1⟩

/-- Claim C6: input-shape errors are not client errors in the code — an
unknown tool, an unknown method and a non-2.0 envelope each produce the
HTTP-500 JSON-RPC error object with code -32603 (the HTTPExceptions
raised with status 400 are swallowed by the bare except), exactly like a
genuine tool-execution failure. -/
theorem input_shape_errors_become_internal :
    (mcp_endpoint (some (RpcBody.mk true (some "2.0".toList)
        (some "tools/call".toList) (some 1) (some "nope".toList)))
        (fun _ => .ok []))
      = .rpcError 500 (some 1) (-32603) "Internal error".toList
          "400: Unknown tool: nope".toList ∧
    (mcp_endpoint (some (RpcBody.mk true (some "2.0".toList)
        (some "bogus".toList) (some 2) none))
        (fun _ => .ok []))
      = .rpcError 500 (some 2) (-32603) "Internal error".toList
          "400: Unknown method: bogus".toList ∧
    (mcp_endpoint (some (RpcBody.mk true (some "1.0".toList)
        (some "tools/list".toList) (some 3) none))
        (fun _ => .ok []))
      = .rpcError 500 (some 3) (-32603) "Internal error".toList
          "400: Invalid JSON-RPC request".toList ∧
    (mcp_endpoint (some (RpcBody.mk true (some "2.0".toList)
        (some "tools/call".toList) (some 4) (some "extract_info".toList)))
        (fun _ => .error "boom".toList))
      = .rpcError 500 (some 4) (-32603) "Internal error".toList
          "boom".toList := by decide

/-- Claim C8: the lookup is not total on the real store — a topic
document holding valid JSON that is not an object (e.g. the number 123)
passes json.load, and the membership test / indexing at lines 246-247
then raises a TypeError that the except tuple does not catch: the scan
aborts instead of skipping the document, both when the identifier is
present in a later well-formed document and when it is present in none.
Documents that fail to decode are still skipped, as the claim says. -/
theorem extract_info_raises_on_nonmapping_doc :
    extract_info "y".toList (some [("weird".toList, JsonDoc.scalar)])
      = .error .nonIterableMembership ∧
    extract_info "x".toList
        (some [("weird".toList, JsonDoc.scalar),
               ("good".toList, JsonDoc.mapping [("x".toList, sample_info)])])
      = .error .nonIterableMembership ∧
    extract_info "x".toList
        (some [("str".toList, JsonDoc.collection (fun _ => true)),
               ("good".toList, JsonDoc.mapping [("x".toList, sample_info)])])
      = .error .nonMappingIndex ∧
    extract_info "x".toList
        (some [("bad".toList, JsonDoc.decodeFailure),
               ("good".toList, JsonDoc.mapping [("x".toList, sample_info)])])
      = .ok (.found sample_info) ∧
    extract_info "y".toList
        (some [("bad".toList, JsonDoc.decodeFailure),
               ("good".toList, JsonDoc.mapping [("x".toList, sample_info)])])
      = .ok .notFound :=
  ⟨rfl, rfl, rfl, rfl, rfl⟩

/-- Claim C9: lenient sort resolution — any sort_by missing from the
case-insensitive underscore-stripped criterion table resolves to
Relevance, and any sort_order missing from the case-insensitive order
table resolves to Descending; both resolvers are total functions. -/
theorem lenient_sort_resolution (sort_by sort_order : Str) :
    (dict_get sort_mapping (strip_underscores (to_lower sort_by)) = none →
        resolve_sort_by sort_by = .Relevance) ∧
    (dict_get order_mapping (to_lower sort_order) = none →
        resolve_sort_order sort_order = .Descending) := by
  constructor
  · intro h; simp [resolve_sort_by, h]
  · intro h; simp [resolve_sort_order, h]

/-- Claim C9 witness: two unrecognized strings fall back to the
defaults. -/
theorem lenient_sort_resolution_witness :
    dict_get sort_mapping (strip_underscores (to_lower "bogus".toList)) = none ∧
    dict_get order_mapping (to_lower "sideways".toList) = none ∧
    resolve_sort_by "bogus".toList = .Relevance ∧
    resolve_sort_order "sideways".toList = .Descending :=
  ⟨by decide, by decide,
   (lenient_sort_resolution "bogus".toList "sideways".toList).1 (by decide),
   (lenient_sort_resolution "bogus".toList "sideways".toList).2 (by decide)⟩
